import Mathlib

/-!
Verification development for the `financeanalyst_pro` repository.

The repository contains two Python source files:

* `src/sdk/python/financeanalyst_sdk.py` — an HTTP client SDK
  (`FinanceAnalystAPI`) around a remote REST API, whose core is the
  retry / rate-limit / token-refresh loop `_request`, plus thin facade
  methods and two module-level convenience functions;
* `setup.py` — a sequential setup script whose `main` function runs
  prerequisite checks, clone, install, environment setup and build steps
  and exits with code 1 on a failed step.

This file gives a shallow embedding of those parts of the code that the
claims touch.  Network interaction is modelled by an oracle
`script : Nat → Outcome` giving the outcome of the i-th call to
`session.request`, and an oracle `refresh : Nat → Bool` giving the
outcome (success / raised exception) of the i-th call to
`refresh_token()` (which in the source is itself a nested `_request`
against `/auth/token`; it is abstracted to its success bit here).
Sleeps and issued requests are recorded in an event trace.  JSON bodies
are modelled as already-parsed `Json` values; JSON numbers are modelled
as rationals, which is faithful here because the client never computes
with them, it only passes them through.
-/

namespace FinSDK

/-- Parsed JSON values.  Numbers are modelled as rationals: the SDK only
moves them around, it never computes with them. -/
inductive Json where
  | null : Json
  | bool (b : Bool) : Json
  | num (q : ℚ) : Json
  | str (s : String) : Json
  | arr (elems : List Json) : Json
  | obj (fields : List (String × Json)) : Json

/-- Field lookup on a JSON object (`none` on non-objects and missing keys). -/
def Json.lookup (j : Json) (k : String) : Option Json :=
  match j with
  | .obj fields => fields.lookup k
  | _ => none

/-- Configuration of the client, mirroring the `APIConfig` dataclass of the
source (only the fields the claims depend on are kept; `timeout`,
`rate_limit_buffer` and the credential fields play no role in the
control flow under study). -/
structure APIConfig where
  base_url : String := "https://api.financeanalystpro.com/v1"
  max_retries : Nat := 3
deriving DecidableEq, Repr

/-- The keyword arguments of one `session.request(**kwargs)` call, as
assembled by `_request`: method, full URL, optional query params, optional
form `data`, optional `json` body.  `headersGen` models the `headers`
entry that the 401-refresh branch writes into `kwargs`
(`kwargs['headers'] = self.session.headers.copy()`): it counts how many
times that assignment has happened, which is all the claims need. -/
structure Kwargs where
  method : String
  url : String
  params : Option (List (String × String)) := none
  data : Option Json := none
  jsonData : Option Json := none
  headersGen : Nat := 0

/-- A raw HTTP response: status code, the parsed `Retry-After` header when
present (the source reads `int(response.headers.get('Retry-After', 60))`,
so the header is modelled as an already-parsed nonnegative integer), and
the parsed JSON body (`response.json()`). -/
structure Resp where
  status : Nat
  retryAfter : Option Nat := none
  body : Json := .null

/-- Outcome of one `session.request` call: either the call raises a
`requests.exceptions.RequestException` (network error / timeout), or it
returns a response. -/
inductive Outcome where
  | netErr : Outcome
  | resp (r : Resp) : Outcome

/-- Errors that `_request` can propagate to its caller:
`httpError r` is the `HTTPError` raised by `response.raise_for_status()`
(it carries the response, hence the body); `netError` is a propagated
network-level `RequestException`; `runtimeError` is the
`RuntimeError("Request failed after all retries")` raised when the loop
falls off its end. -/
inductive ReqError where
  | httpError (r : Resp) : ReqError
  | netError : ReqError
  | runtimeError : ReqError

/-- Observable events of one `_request` invocation, in temporal order:
a `session.request` call issued with given kwargs, a `time.sleep` of a
given number of seconds, or a `refresh_token()` call with its outcome. -/
inductive Event where
  | req (kw : Kwargs) : Event
  | sleep (secs : Nat) : Event
  | refreshAttempt (ok : Bool) : Event

/-- The requests issued during a run, in order. -/
def issuedOf (evs : List Event) : List Kwargs :=
  evs.filterMap fun e => match e with | .req k => some k | _ => none

/-- The sleep durations during a run, in order. -/
def sleepsOf (evs : List Event) : List Nat :=
  evs.filterMap fun e => match e with | .sleep n => some n | _ => none

/-- The number of `refresh_token()` calls during a run. -/
def refreshesOf (evs : List Event) : Nat :=
  (evs.filterMap fun e => match e with | .refreshAttempt b => some b | _ => none).length

/-- Result of the `if response.status_code == 401 and self._tokens:` block
of `_request` (source lines 178–186): the response the subsequent
`raise_for_status` acts on, the next free indices of the two oracles, the
(possibly mutated) kwargs, and the events of the block. -/
structure BranchOut where
  resp2 : Resp
  nextReq : Nat
  nextRef : Nat
  kw2 : Kwargs
  evs : List Event

/-- The 401 branch of `_request`.  When the first response has status 401
and a token pair is held, one `refresh_token()` is attempted inside a
`try ... except Exception: pass`:

* if the refresh raises, the exception is swallowed and the original 401
  response is kept;
* if it succeeds, `kwargs['headers']` is updated and the request is
  re-issued once; if that re-issue itself raises, the exception is also
  swallowed by the same `except` and the original 401 response is kept;
  otherwise the second response replaces the first.

Any other status passes through unchanged. -/
def handle401 (tokens : Bool) (script : Nat → Outcome) (refresh : Nat → Bool)
    (reqIdx refIdx : Nat) (kw : Kwargs) (r : Resp) : BranchOut :=
  if r.status = 401 ∧ tokens = true then
    if refresh refIdx then
      let kw2 := { kw with headersGen := kw.headersGen + 1 }
      match script (reqIdx + 1) with
      | .netErr => ⟨r, reqIdx + 2, refIdx + 1, kw2, [.refreshAttempt true, .req kw2]⟩
      | .resp r2 => ⟨r2, reqIdx + 2, refIdx + 1, kw2, [.refreshAttempt true, .req kw2]⟩
    else ⟨r, reqIdx + 1, refIdx + 1, kw, [.refreshAttempt false]⟩
  else ⟨r, reqIdx + 1, refIdx, kw, []⟩

/-- The retry loop of `FinanceAnalystAPI._request` (source lines 167–196),
`for attempt in range(self.config.max_retries)`, as structural recursion
on the number of remaining iterations; `attempt` counts up from 0 as in
the source, and `remaining = 0` at the head of an iteration is exactly
the source's `attempt == self.config.max_retries - 1` test.  Per
iteration:

* a raised `RequestException` is re-raised on the last attempt, otherwise
  the loop sleeps `2 ** attempt` and retries;
* status 429 sleeps `Retry-After` (default 60) and `continue`s — which in
  the source advances `attempt`, so the iteration is charged against the
  budget;
* status 401 with a held token runs `handle401`;
* `raise_for_status()` raises for statuses in [400, 600); the raised
  `HTTPError` is a `RequestException`, so it is re-raised on the last
  attempt and otherwise retried after a `2 ** attempt` sleep;
* any remaining response is returned.

Falling off the end of the loop raises
`RuntimeError("Request failed after all retries")`. -/
def attemptLoop (tokens : Bool) (script : Nat → Outcome) (refresh : Nat → Bool) :
    Nat → Nat → Nat → Nat → Kwargs → Except ReqError Resp × List Event
  | 0, _, _, _, _ => (.error .runtimeError, [])
  | n + 1, attempt, reqIdx, refIdx, kw =>
    match script reqIdx with
    | .netErr =>
      if n = 0 then (.error .netError, [.req kw])
      else
        let rest := attemptLoop tokens script refresh n (attempt + 1) (reqIdx + 1) refIdx kw
        (rest.1, .req kw :: .sleep (2 ^ attempt) :: rest.2)
    | .resp r =>
      if r.status = 429 then
        let rest := attemptLoop tokens script refresh n (attempt + 1) (reqIdx + 1) refIdx kw
        (rest.1, .req kw :: .sleep (r.retryAfter.getD 60) :: rest.2)
      else
        let b := handle401 tokens script refresh reqIdx refIdx kw r
        if 400 ≤ b.resp2.status ∧ b.resp2.status < 600 then
          if n = 0 then (.error (.httpError b.resp2), .req kw :: b.evs)
          else
            let rest := attemptLoop tokens script refresh n (attempt + 1) b.nextReq b.nextRef b.kw2
            (rest.1, .req kw :: (b.evs ++ .sleep (2 ^ attempt) :: rest.2))
        else (.ok b.resp2, .req kw :: b.evs)

/-- `FinanceAnalystAPI._request`: run the retry loop from attempt 0 with
fresh oracle indices on the kwargs assembled for the call. -/
def requestRun (cfg : APIConfig) (tokens : Bool) (script : Nat → Outcome)
    (refresh : Nat → Bool) (kw : Kwargs) : Except ReqError Resp × List Event :=
  attemptLoop tokens script refresh cfg.max_retries 0 0 0 kw

/-- The kwargs `_request` assembles for a call with neither `params`,
`data` nor `json_data` (url = base_url + endpoint). -/
def baseKwargs (cfg : APIConfig) (method endp : String) : Kwargs :=
  { method := method, url := cfg.base_url ++ endp }

/-- `FinanceAnalystAPI.get_stock_quote`: `GET /market/quote/{symbol}`,
returning `response.json()` (source lines 211–222). -/
def get_stock_quote (cfg : APIConfig) (tokens : Bool) (script : Nat → Outcome)
    (refresh : Nat → Bool) (symbol : String) : Except ReqError Json × List Event :=
  let out := requestRun cfg tokens script refresh
    (baseKwargs cfg "GET" ("/market/quote/" ++ symbol))
  (out.1.map Resp.body, out.2)

/-- `FinanceAnalystAPI.analyze_portfolio`: `POST /analytics/portfolio` with
`json_data=portfolio`, returning `response.json()` (source lines 294–305). -/
def analyze_portfolio (cfg : APIConfig) (tokens : Bool) (script : Nat → Outcome)
    (refresh : Nat → Bool) (portfolio : Json) : Except ReqError Json × List Event :=
  let out := requestRun cfg tokens script refresh
    { baseKwargs cfg "POST" "/analytics/portfolio" with jsonData := some portfolio }
  (out.1.map Resp.body, out.2)

/-- `FinanceAnalystAPI.unregister_webhook`: `DELETE /webhooks/{webhook_id}`,
returning `response.status_code == 200` (source lines 465–476). -/
def unregister_webhook (cfg : APIConfig) (tokens : Bool) (script : Nat → Outcome)
    (refresh : Nat → Bool) (webhook_id : String) : Except ReqError Bool × List Event :=
  let out := requestRun cfg tokens script refresh
    (baseKwargs cfg "DELETE" ("/webhooks/" ++ webhook_id))
  (out.1.map (fun r => r.status == 200), out.2)

/-- `FinanceAnalystAPI.disconnect_integration`:
`POST /integrations/{provider}/disconnect`, returning
`response.status_code == 200` (source lines 505–516). -/
def disconnect_integration (cfg : APIConfig) (tokens : Bool) (script : Nat → Outcome)
    (refresh : Nat → Bool) (provider : String) : Except ReqError Bool × List Event :=
  let out := requestRun cfg tokens script refresh
    (baseKwargs cfg "POST" ("/integrations/" ++ provider ++ "/disconnect"))
  (out.1.map (fun r => r.status == 200), out.2)

/-- The message `str(e)` of an error raised out of `_request`.  The
`RuntimeError` message is verbatim from the source; the renderings of
`HTTPError` and `RequestException` messages abstract the text produced by
the `requests` library (only its presence matters to the claims). -/
def errorStr : ReqError → String
  | .httpError r => "HTTPError status " ++ toString r.status
  | .netError => "RequestException"
  | .runtimeError => "Request failed after all retries"

/-- `FinanceAnalystAPI.get_api_status` (source lines 537–552):
`GET /health` inside `try`, returning `response.json()`; any raised
exception `e` is converted into the payload
`{'status': 'error', 'message': str(e), 'timestamp': ...}` — the
function always returns a value, it never propagates an exception
(which its total return type here makes structural).  `now` stands for
`datetime.now().isoformat()`. -/
def get_api_status (cfg : APIConfig) (tokens : Bool) (script : Nat → Outcome)
    (refresh : Nat → Bool) (now : String) : Json × List Event :=
  match requestRun cfg tokens script refresh (baseKwargs cfg "GET" "/health") with
  | (.ok r, evs) => (r.body, evs)
  | (.error e, evs) =>
      (Json.obj [("status", .str "error"), ("message", .str (errorStr e)),
                 ("timestamp", .str now)], evs)

/-- Modelled from the spec: the `NormalizedResponse` record of the
repository's second SDK module, which is not under `src/` (the file in
`src/` returns raw parsed JSON); from the spec's data model: success
flag, data payload, metadata, optional error detail, optional
request-correlation id. -/
structure NormalizedResponse where
  success : Bool
  data : Json
  metadata : Json
  error : Option Json
  request_id : Option String

/-- Modelled from the spec: the response normalizer of the repository's
second SDK module, which is not under `src/`.  Spec wording: maps JSON
field `success` (default true if absent) into the result's success flag;
`data`/`metadata`/`error` map directly; request-id is taken from a
response header when present.  Per the spec's quote scenario, a body
that carries no `data` envelope maps wholesale into `data` (the scenario
body has no `success`/`data` fields yet yields `success=true` and
`data=` the body). -/
def normalize (r : Resp) (requestIdHeader : Option String) : NormalizedResponse :=
  { success := match r.body.lookup "success" with
               | some (.bool b) => b
               | _ => true
    data := (r.body.lookup "data").getD r.body
    metadata := (r.body.lookup "metadata").getD (Json.obj [])
    error := r.body.lookup "error"
    request_id := requestIdHeader }

/-- The Python exception raised by `1.0 / len(symbols)` on an empty list. -/
inductive PyErr where
  | zeroDivisionError : PyErr
deriving DecidableEq, Repr

/-- Python float division: raises `ZeroDivisionError` on a zero divisor,
otherwise divides (exact rational division; the values here are only
passed through, never computed with further). -/
def pyDiv (a b : ℚ) : Except PyErr ℚ :=
  if b = 0 then .error .zeroDivisionError else .ok (a / b)

/-- The weight-defaulting step of `quick_portfolio_analysis` (source lines
624–625): `if not weights: weights = [1.0 / len(symbols)] * len(symbols)`.
A missing argument and an empty list are both falsy, so both take the
equal-weight branch with its unguarded division. -/
def quickWeights (symbols : List String) (weights : Option (List ℚ)) :
    Except PyErr (List ℚ) :=
  if weights = none ∨ weights = some [] then
    (pyDiv 1 (symbols.length : ℚ)).map fun w => List.replicate symbols.length w
  else .ok (weights.getD [])

/-- Errors out of `quick_portfolio_analysis`: a Python-level error raised
while building the portfolio, or an error propagated from `_request`. -/
inductive QuickErr where
  | py (e : PyErr) : QuickErr
  | req (e : ReqError) : QuickErr

/-- `quick_portfolio_analysis` (source lines 612–635): default the weights
(equal weight when absent), build the portfolio payload, construct a
fresh `FinanceAnalystAPI()` (so no token pair is held and the default
config applies) and call `analyze_portfolio`.  When the weight
computation raises, no request is issued (empty event trace). -/
def quick_portfolio_analysis (script : Nat → Outcome) (refresh : Nat → Bool)
    (symbols : List String) (weights : Option (List ℚ)) :
    Except QuickErr Json × List Event :=
  match quickWeights symbols weights with
  | .error e => (.error (.py e), [])
  | .ok ws =>
      let assets := (symbols.zip ws).map fun p =>
        Json.obj [("symbol", .str p.1), ("weight", .num p.2)]
      let out := analyze_portfolio {} false script refresh (Json.obj [("assets", .arr assets)])
      (out.1.mapError QuickErr.req, out.2)

/-- An outcome the retry loop treats as a generic failure: a raised
network exception, or a response whose status `raise_for_status` rejects
(in [400, 600)) that is neither 429 nor a 401 met while a token is held. -/
def genFail (tokens : Bool) : Outcome → Prop
  | .netErr => True
  | .resp r => 400 ≤ r.status ∧ r.status < 600 ∧ r.status ≠ 429 ∧ ¬(r.status = 401 ∧ tokens = true)

/-- The failure class named by the spec for the plain-backoff path: a
network exception or an error status other than 429, 401 and 400. -/
def claimFail : Outcome → Prop
  | .netErr => True
  | .resp r => 400 ≤ r.status ∧ r.status < 600 ∧ r.status ≠ 429 ∧ r.status ≠ 401 ∧ r.status ≠ 400

/-- The error `_request` re-raises when this outcome hits the last
attempt: the network exception itself, or the `HTTPError` carrying the
response. -/
def errOf : Outcome → ReqError
  | .netErr => .netError
  | .resp r => .httpError r

/-- Event trace of a run of `n` generically failing attempts starting at
attempt index `a`: each non-final attempt is followed by a `2 ^ attempt`
backoff sleep, the final one is not. -/
def failEvents (kw : Kwargs) : Nat → Nat → List Event
  | _, 0 => []
  | _, 1 => [.req kw]
  | a, n + 2 => .req kw :: .sleep (2 ^ a) :: failEvents kw (a + 1) (n + 1)

/-- Event trace of `k` generically failing attempts starting at attempt
index `a`, each followed by its backoff sleep (a later attempt follows). -/
def failPrefixEvents (kw : Kwargs) : Nat → Nat → List Event
  | _, 0 => []
  | a, k + 1 => .req kw :: .sleep (2 ^ a) :: failPrefixEvents kw (a + 1) k

/-- Event trace of `n` rate-limited attempts: each issues the request and
sleeps the `Retry-After` wait `w`. -/
def rateLimitedEvents (kw : Kwargs) (w : Nat) : Nat → List Event
  | 0 => []
  | n + 1 => .req kw :: .sleep w :: rateLimitedEvents kw w n

/-- The default `APIConfig()` of the source: `max_retries = 3`. -/
def defaultCfg : APIConfig := {}

/-- Sample kwargs for concrete runs. -/
def demoKw : Kwargs := baseKwargs {} "GET" "/health"

/-- A rate-limited response without a `Retry-After` header. -/
def resp429 : Resp := { status := 429 }

/-- An unauthorized response. -/
def resp401 : Resp := { status := 401 }

/-- The 400 response of the spec's portfolio scenario. -/
def resp400weights : Resp :=
  { status := 400, body := .obj [("error", .str "weights must sum to 1")] }

/-- The 200 response of the spec's quote scenario (price 150.25). -/
def resp200quote : Resp :=
  { status := 200, body := .obj [("price", .num (15025 / 100))] }

/-- A 204 No Content response. -/
def resp204 : Resp := { status := 204 }

/-- A 100 Continue response. -/
def resp100 : Resp := { status := 100 }

/-- A server that fails every request at the network level. -/
def alwaysNetErr : Nat → Outcome := fun _ => .netErr

/-- A server that answers every request with the same response. -/
def always (r : Resp) : Nat → Outcome := fun _ => .resp r

/-- A server that rate-limits the first request and then fails at the
network level. -/
def oneRateLimitThenNet : Nat → Outcome := fun i => if i = 0 then .resp resp429 else .netErr

/-- A refresh oracle on which every `refresh_token()` raises. -/
def noRefresh : Nat → Bool := fun _ => false

/-- A refresh oracle on which every `refresh_token()` succeeds. -/
def yesRefresh : Nat → Bool := fun _ => true

/-- A sample portfolio payload for concrete runs. -/
def portfolioDemo : Json :=
  .obj [("assets", .arr [.obj [("symbol", .str "AAPL"), ("weight", .num 1)]])]

end FinSDK

namespace Setup

/-- Command-line flags of `setup.py` (source lines 263–268). -/
structure Flags where
  skip_tests : Bool
  skip_build : Bool
  auto_start : Bool
  yes : Bool
deriving DecidableEq, Repr

/-- Success of each fallible setup step when it is executed.
`setup_environment` is omitted: in the source both of its branches
return `True`, so it can fail only by raising an exception, which the
`__main__` guard turns into exit code 1 (see `scriptExitCode`).
`run_tests` is omitted: it returns `True` in both of its branches. -/
structure StepResults where
  check_requirements : Bool
  clone_repository : Bool
  install_dependencies : Bool
  build_application : Bool
deriving DecidableEq, Repr

/-- The stripped, lowercased answers the user types at the interactive
prompts of `main` (each compared against the single letter n). -/
structure Answers where
  continueAns : String
  buildAns : String
deriving DecidableEq, Repr

/-- How `main` itself ends: returning normally, or calling `sys.exit`
with a code. -/
inductive MainEnd where
  | finished : MainEnd
  | exited (code : Nat) : MainEnd
deriving DecidableEq, Repr

/-- `setup.py main` (source lines 261–329).  The initial confirmation
prompt appears only when neither `--yes` nor `--auto-start` is given and
cancels on answer n.  Each of check-requirements, clone, install and
environment-setup exits with code 1 on failure (environment setup never
returns `False`, see `StepResults`).  Tests never affect the outcome.
The build runs unless `--skip-build`, either unconditionally under
`--yes`/`--auto-start` or after a prompt defaulting to yes, and exits
with code 1 on failure.  The final start-server section never exits with
a nonzero code (`run_command(..., check=False)`). -/
def mainRun (f : Flags) (st : StepResults) (a : Answers) : MainEnd :=
  if f.yes = false ∧ f.auto_start = false ∧ a.continueAns = "n" then .finished
  else if st.check_requirements = false then .exited 1
  else if st.clone_repository = false then .exited 1
  else if st.install_dependencies = false then .exited 1
  else if f.skip_build = false then
    if f.yes = true ∨ f.auto_start = true then
      if st.build_application = false then .exited 1 else .finished
    else if a.buildAns ≠ "n" then
      if st.build_application = false then .exited 1 else .finished
    else .finished
  else .finished

/-- How the process running `setup.py` ends, as seen by the `__main__`
guard (source lines 331–339): `main` ends normally or via `sys.exit`
(`SystemExit` is not an `Exception`, so the guard does not intercept
it), or a `KeyboardInterrupt` arrives, or some other exception escapes
`main` (for example `shutil.copy` failing inside `setup_environment`). -/
inductive RunSignal where
  | normal (e : MainEnd) : RunSignal
  | keyboardInterrupt : RunSignal
  | otherException : RunSignal
deriving DecidableEq, Repr

/-- The process exit code produced by the `__main__` guard: a normal end
of `main` gives 0, `sys.exit(c)` gives c, `KeyboardInterrupt` gives 0,
any other exception gives 1. -/
def scriptExitCode : RunSignal → Nat
  | .normal .finished => 0
  | .normal (.exited c) => c
  | .keyboardInterrupt => 0
  | .otherException => 1

/-- The initial confirmation prompt lets the run proceed: a flag was
given, or the user did not answer n. -/
def proceeds (f : Flags) (a : Answers) : Prop :=
  f.yes = true ∨ f.auto_start = true ∨ a.continueAns ≠ "n"

/-- The build step is executed: not skipped, and either a flag bypasses
the prompt or the prompt was not answered n. -/
def buildPerformed (f : Flags) (a : Answers) : Prop :=
  f.skip_build = false ∧ (f.yes = true ∨ f.auto_start = true ∨ a.buildAns ≠ "n")

instance (f : Flags) (a : Answers) : Decidable (proceeds f a) := by
  unfold proceeds; infer_instance

instance (f : Flags) (a : Answers) : Decidable (buildPerformed f a) := by
  unfold buildPerformed; infer_instance

end Setup

/-!  Helper lemmas about the retry loop. -/

namespace FinSDK

lemma issuedOf_nil : issuedOf [] = [] := rfl

lemma issuedOf_cons_req (kw : Kwargs) (evs : List Event) :
    issuedOf (.req kw :: evs) = kw :: issuedOf evs := rfl

lemma issuedOf_cons_sleep (n : Nat) (evs : List Event) :
    issuedOf (.sleep n :: evs) = issuedOf evs := rfl

lemma issuedOf_cons_refresh (b : Bool) (evs : List Event) :
    issuedOf (.refreshAttempt b :: evs) = issuedOf evs := rfl

lemma issuedOf_append (l₁ l₂ : List Event) :
    issuedOf (l₁ ++ l₂) = issuedOf l₁ ++ issuedOf l₂ :=
  List.filterMap_append l₁ l₂ _

lemma sleepsOf_nil : sleepsOf [] = [] := rfl

lemma sleepsOf_cons_req (kw : Kwargs) (evs : List Event) :
    sleepsOf (.req kw :: evs) = sleepsOf evs := rfl

lemma sleepsOf_cons_sleep (n : Nat) (evs : List Event) :
    sleepsOf (.sleep n :: evs) = n :: sleepsOf evs := rfl

lemma sleepsOf_cons_refresh (b : Bool) (evs : List Event) :
    sleepsOf (.refreshAttempt b :: evs) = sleepsOf evs := rfl

lemma refreshesOf_nil : refreshesOf [] = 0 := rfl

lemma refreshesOf_cons_req (kw : Kwargs) (evs : List Event) :
    refreshesOf (.req kw :: evs) = refreshesOf evs := rfl

lemma refreshesOf_cons_sleep (n : Nat) (evs : List Event) :
    refreshesOf (.sleep n :: evs) = refreshesOf evs := rfl

lemma refreshesOf_cons_refresh (b : Bool) (evs : List Event) :
    refreshesOf (.refreshAttempt b :: evs) = refreshesOf evs + 1 := by
  simp [refreshesOf]

lemma refreshesOf_append (l₁ l₂ : List Event) :
    refreshesOf (l₁ ++ l₂) = refreshesOf l₁ + refreshesOf l₂ := by
  simp [refreshesOf, List.filterMap_append]

/-- An outcome that is not a 401-with-token is not affected by the 401
branch. -/
lemma handle401_skip (tokens : Bool) (script : Nat → Outcome) (refresh : Nat → Bool)
    (reqIdx refIdx : Nat) (kw : Kwargs) (r : Resp)
    (h : ¬(r.status = 401 ∧ tokens = true)) :
    handle401 tokens script refresh reqIdx refIdx kw r = ⟨r, reqIdx + 1, refIdx, kw, []⟩ := by
  unfold handle401
  exact if_neg h

/-- Every nonempty run issues the (current) request first. -/
lemma attemptLoop_events_head (tokens : Bool) (script : Nat → Outcome) (refresh : Nat → Bool)
    (n attempt reqIdx refIdx : Nat) (kw : Kwargs) (hn : 1 ≤ n) :
    ∃ rest, (attemptLoop tokens script refresh n attempt reqIdx refIdx kw).2 = .req kw :: rest := by
  obtain ⟨m, rfl⟩ : ∃ m, n = m + 1 := ⟨n - 1, by omega⟩
  unfold attemptLoop
  rcases h : script reqIdx with _ | r
  · dsimp only
    split <;> exact ⟨_, rfl⟩
  · dsimp only
    split
    · exact ⟨_, rfl⟩
    · split
      · split <;> exact ⟨_, rfl⟩
      · exact ⟨_, rfl⟩

/-- A run all of whose attempts fail generically: the error of the last
attempt is propagated, after `failEvents`-shaped traffic. -/
lemma attemptLoop_allFail (tokens : Bool) (script : Nat → Outcome) (refresh : Nat → Bool)
    (n attempt reqIdx refIdx : Nat) (kw : Kwargs) (hn : 1 ≤ n)
    (hf : ∀ i, i < n → genFail tokens (script (reqIdx + i))) :
    attemptLoop tokens script refresh n attempt reqIdx refIdx kw =
      (.error (errOf (script (reqIdx + (n - 1)))), failEvents kw attempt n) := by
  induction n generalizing attempt reqIdx with
  | zero => omega
  | succ m ih =>
    have h0 : genFail tokens (script reqIdx) := by
      have := hf 0 (by omega); simpa using this
    unfold attemptLoop
    rcases h : script reqIdx with _ | r
    · dsimp only
      rcases Nat.eq_zero_or_pos m with hm | hm
      · subst hm
        simp [failEvents, errOf, h]
      · have hm1 : ¬(m = 0) := by omega
        rw [if_neg hm1]
        have ihm := ih (attempt + 1) (reqIdx + 1) hm
          (fun i hi => by
            have := hf (i + 1) (by omega)
            simpa [Nat.add_assoc, Nat.add_comm 1 i] using this)
        rw [ihm]
        obtain ⟨m', rfl⟩ : ∃ m', m = m' + 1 := ⟨m - 1, by omega⟩
        have hidx : reqIdx + 1 + (m' + 1 - 1) = reqIdx + (m' + 1 + 1 - 1) := by omega
        have hidx2 : reqIdx + 1 + m' = reqIdx + (m' + 1) := by omega
        simp [failEvents, hidx, hidx2]
    · rw [h] at h0
      have h0' : 400 ≤ r.status ∧ r.status < 600 ∧ r.status ≠ 429 ∧
          ¬(r.status = 401 ∧ tokens = true) := h0
      dsimp only
      rw [if_neg h0'.2.2.1]
      rw [handle401_skip tokens script refresh reqIdx refIdx kw r h0'.2.2.2]
      dsimp only
      rw [if_pos ⟨h0'.1, h0'.2.1⟩]
      rcases Nat.eq_zero_or_pos m with hm | hm
      · subst hm
        simp [failEvents, errOf, h]
      · have hm1 : ¬(m = 0) := by omega
        rw [if_neg hm1]
        have ihm := ih (attempt + 1) (reqIdx + 1) hm
          (fun i hi => by
            have := hf (i + 1) (by omega)
            simpa [Nat.add_assoc, Nat.add_comm 1 i] using this)
        rw [ihm]
        obtain ⟨m', rfl⟩ : ∃ m', m = m' + 1 := ⟨m - 1, by omega⟩
        have hidx : reqIdx + 1 + (m' + 1 - 1) = reqIdx + (m' + 1 + 1 - 1) := by omega
        have hidx2 : reqIdx + 1 + m' = reqIdx + (m' + 1) := by omega
        simp [failEvents, hidx, hidx2]

/-- The requests of a `failEvents` trace: the same kwargs each time. -/
lemma issuedOf_failEvents (kw : Kwargs) (a n : Nat) :
    issuedOf (failEvents kw a n) = List.replicate n kw := by
  induction n generalizing a with
  | zero => rfl
  | succ m ih =>
    cases m with
    | zero => rfl
    | succ m2 =>
      simp [failEvents, issuedOf_cons_req, issuedOf_cons_sleep, ih (a + 1),
        List.replicate_succ]

/-- The sleeps of a `failEvents` trace: doubling backoff, one per
non-final attempt. -/
lemma sleepsOf_failEvents (kw : Kwargs) (a n : Nat) :
    sleepsOf (failEvents kw a n) = (List.range (n - 1)).map (fun i => 2 ^ (a + i)) := by
  induction n generalizing a with
  | zero => rfl
  | succ m ih =>
    cases m with
    | zero => rfl
    | succ m2 =>
      rw [show m2 + 1 + 1 - 1 = m2 + 1 by omega, List.range_succ_eq_map]
      simp only [failEvents, sleepsOf_cons_req, sleepsOf_cons_sleep, ih (a + 1),
        List.map_cons, List.map_map, Nat.add_zero]
      rw [show m2 + 1 - 1 = m2 by omega]
      congr 1
      refine List.map_congr_left fun i _ => ?_
      have hx : a + 1 + i = a + Nat.succ i := by omega
      simp [Function.comp, hx]

/-- The requests of a `failPrefixEvents` trace. -/
lemma issuedOf_failPrefixEvents (kw : Kwargs) (a k : Nat) :
    issuedOf (failPrefixEvents kw a k) = List.replicate k kw := by
  induction k generalizing a with
  | zero => rfl
  | succ m ih =>
    simp [failPrefixEvents, issuedOf_cons_req, issuedOf_cons_sleep, ih (a + 1),
      List.replicate_succ]

/-- A run whose first `k` attempts fail generically and whose attempt
`k` returns a response `raise_for_status` accepts: that response is
returned, after `k` backoffs and `k + 1` requests. -/
lemma attemptLoop_failThenOk (tokens : Bool) (script : Nat → Outcome) (refresh : Nat → Bool)
    (k : Nat) (r : Resp) :
    ∀ (n attempt reqIdx refIdx : Nat) (kw : Kwargs), k < n →
    (∀ i, i < k → genFail tokens (script (reqIdx + i))) →
    script (reqIdx + k) = .resp r →
    r.status < 400 →
    attemptLoop tokens script refresh n attempt reqIdx refIdx kw =
      (.ok r, failPrefixEvents kw attempt k ++ [.req kw]) := by
  induction k with
  | zero =>
    intro n attempt reqIdx refIdx kw hk hf hs h2
    obtain ⟨m, rfl⟩ : ∃ m, n = m + 1 := ⟨n - 1, by omega⟩
    rw [Nat.add_zero] at hs
    unfold attemptLoop
    rw [hs]
    dsimp only
    have h429 : ¬(r.status = 429) := by omega
    have h401 : ¬(r.status = 401 ∧ tokens = true) := by rintro ⟨hx, _⟩; omega
    rw [if_neg h429, handle401_skip tokens script refresh reqIdx refIdx kw r h401]
    dsimp only
    rw [if_neg (by omega : ¬(400 ≤ r.status ∧ r.status < 600))]
    simp [failPrefixEvents]
  | succ k2 ih =>
    intro n attempt reqIdx refIdx kw hk hf hs h2
    obtain ⟨m, rfl⟩ : ∃ m, n = m + 1 := ⟨n - 1, by omega⟩
    have h0 : genFail tokens (script reqIdx) := by
      have := hf 0 (by omega); simpa using this
    have hf2 : ∀ i, i < k2 → genFail tokens (script (reqIdx + 1 + i)) := fun i hi => by
      have := hf (i + 1) (by omega)
      simpa [Nat.add_assoc, Nat.add_comm 1 i] using this
    have hs2 : script (reqIdx + 1 + k2) = .resp r := by
      rw [show reqIdx + 1 + k2 = reqIdx + (k2 + 1) by omega]; exact hs
    unfold attemptLoop
    rcases h : script reqIdx with _ | r0
    · dsimp only
      rw [if_neg (by omega : ¬(m = 0))]
      rw [ih m (attempt + 1) (reqIdx + 1) refIdx kw (by omega) hf2 hs2 h2]
      simp [failPrefixEvents]
    · rw [h] at h0
      have h0x : 400 ≤ r0.status ∧ r0.status < 600 ∧ r0.status ≠ 429 ∧
          ¬(r0.status = 401 ∧ tokens = true) := h0
      dsimp only
      rw [if_neg h0x.2.2.1]
      rw [handle401_skip tokens script refresh reqIdx refIdx kw r0 h0x.2.2.2]
      dsimp only
      rw [if_pos ⟨h0x.1, h0x.2.1⟩]
      rw [if_neg (by omega : ¬(m = 0))]
      rw [ih m (attempt + 1) (reqIdx + 1) refIdx kw (by omega) hf2 hs2 h2]
      simp [failPrefixEvents]

/-- A run all of whose attempts are rate-limited: each attempt sleeps the
`Retry-After` wait and the `continue` consumes the budget, so the loop
falls off its end and the `RuntimeError` is raised. -/
lemma attemptLoop_all429 (tokens : Bool) (script : Nat → Outcome) (refresh : Nat → Bool)
    (r : Resp) (hr : r.status = 429) :
    ∀ (n attempt reqIdx refIdx : Nat) (kw : Kwargs),
    (∀ i, i < n → script (reqIdx + i) = .resp r) →
    attemptLoop tokens script refresh n attempt reqIdx refIdx kw =
      (.error .runtimeError, rateLimitedEvents kw (r.retryAfter.getD 60) n) := by
  intro n
  induction n with
  | zero => intro attempt reqIdx refIdx kw hs; rfl
  | succ m ih =>
    intro attempt reqIdx refIdx kw hs
    have h0 : script reqIdx = .resp r := by
      have := hs 0 (by omega); simpa using this
    unfold attemptLoop
    rw [h0]
    dsimp only
    rw [if_pos hr]
    rw [ih (attempt + 1) (reqIdx + 1) refIdx kw (fun i hi => by
      have := hs (i + 1) (by omega)
      simpa [Nat.add_assoc, Nat.add_comm 1 i] using this)]
    simp [rateLimitedEvents]

/-- The 401 branch when a refresh succeeds and the re-issued request
returns a response. -/
lemma handle401_ok (script : Nat → Outcome) (refresh : Nat → Bool)
    (reqIdx refIdx : Nat) (kw : Kwargs) (r r2 : Resp)
    (h1 : r.status = 401) (h2 : refresh refIdx = true)
    (h3 : script (reqIdx + 1) = .resp r2) :
    handle401 true script refresh reqIdx refIdx kw r =
      ⟨r2, reqIdx + 2, refIdx + 1, { kw with headersGen := kw.headersGen + 1 },
       [.refreshAttempt true, .req { kw with headersGen := kw.headersGen + 1 }]⟩ := by
  unfold handle401
  rw [if_pos ⟨h1, rfl⟩, h2]
  simp [h3]

/-- A run against a server that answers 401 to everything, with a token
pair held and every refresh succeeding: every attempt refreshes once and
re-issues once, the re-issued 401 re-enters the generic retry path, and
after the budget is exhausted the `HTTPError` for the 401 is raised.
The run performs `n` refreshes and `2 * n` requests in total. -/
lemma attemptLoop_all401 (script : Nat → Outcome) (refresh : Nat → Bool) (r : Resp)
    (hr : r.status = 401) (hs : ∀ i, script i = .resp r) (href : ∀ i, refresh i = true) :
    ∀ (n attempt reqIdx refIdx : Nat) (kw : Kwargs), 1 ≤ n →
    (attemptLoop true script refresh n attempt reqIdx refIdx kw).1 = .error (.httpError r) ∧
    (issuedOf (attemptLoop true script refresh n attempt reqIdx refIdx kw).2).length = 2 * n ∧
    refreshesOf (attemptLoop true script refresh n attempt reqIdx refIdx kw).2 = n := by
  intro n
  induction n with
  | zero => intro attempt reqIdx refIdx kw hn; omega
  | succ m ih =>
    intro attempt reqIdx refIdx kw hn
    have hbr := handle401_ok script refresh reqIdx refIdx kw r r hr (href refIdx)
      (hs (reqIdx + 1))
    unfold attemptLoop
    rw [hs reqIdx]
    dsimp only
    rw [if_neg (by omega : ¬(r.status = 429))]
    rw [hbr]
    dsimp only
    rw [if_pos (by omega : 400 ≤ r.status ∧ r.status < 600)]
    rcases Nat.eq_zero_or_pos m with hm | hm
    · subst hm
      rw [if_pos rfl]
      exact ⟨rfl, rfl, rfl⟩
    · rw [if_neg (by omega : ¬(m = 0))]
      obtain ⟨ihr, ihi, ihf⟩ := ih (attempt + 1) (reqIdx + 2) (refIdx + 1)
        { kw with headersGen := kw.headersGen + 1 } hm
      refine ⟨ihr, ?_, ?_⟩
      · simp only [List.cons_append, List.nil_append, issuedOf_cons_req,
          issuedOf_cons_refresh, issuedOf_cons_sleep, List.length_cons]
        omega
      · simp only [List.cons_append, List.nil_append, refreshesOf_cons_req,
          refreshesOf_cons_refresh, refreshesOf_cons_sleep]
        omega

/-- The requests of a `rateLimitedEvents` trace. -/
lemma issuedOf_rateLimitedEvents (kw : Kwargs) (w n : Nat) :
    issuedOf (rateLimitedEvents kw w n) = List.replicate n kw := by
  induction n with
  | zero => rfl
  | succ m ih =>
    simp [rateLimitedEvents, issuedOf_cons_req, issuedOf_cons_sleep, ih,
      List.replicate_succ]

/-- The sleeps of a `rateLimitedEvents` trace. -/
lemma sleepsOf_rateLimitedEvents (kw : Kwargs) (w n : Nat) :
    sleepsOf (rateLimitedEvents kw w n) = List.replicate n w := by
  induction n with
  | zero => rfl
  | succ m ih =>
    simp [rateLimitedEvents, sleepsOf_cons_req, sleepsOf_cons_sleep, ih,
      List.replicate_succ]

/-- The failure class of the spec is a generic failure of the loop. -/
lemma claimFail_genFail (tokens : Bool) (o : Outcome) (h : claimFail o) :
    genFail tokens o := by
  cases o with
  | netErr => trivial
  | resp r =>
    have hx : 400 ≤ r.status ∧ r.status < 600 ∧ r.status ≠ 429 ∧ r.status ≠ 401 ∧
        r.status ≠ 400 := h
    show 400 ≤ r.status ∧ r.status < 600 ∧ r.status ≠ 429 ∧
        ¬(r.status = 401 ∧ tokens = true)
    exact ⟨hx.1, hx.2.1, hx.2.2.1, fun hc => hx.2.2.2.1 hc.1⟩

/-- A 400 response is a generic failure when no token pair is held. -/
lemma genFail_of_400 (r : Resp) (h : r.status = 400) : genFail false (.resp r) := by
  show 400 ≤ r.status ∧ r.status < 600 ∧ r.status ≠ 429 ∧
      ¬(r.status = 401 ∧ false = true)
  refine ⟨by omega, by omega, by omega, ?_⟩
  rintro ⟨-, hc⟩
  exact Bool.false_ne_true hc

end FinSDK

/-!  Claim theorems. -/

namespace FinSDK

/-- Claim C4: for every request failing on every attempt with a
non-429/401/400 failure (network exception or other error status), the
total number of attempts equals `max_retries`, the delay before attempt
k+1 is `2 ^ (k - 1)` base units (the sleeps are `2 ^ 0, 2 ^ 1, ...`),
and after the last attempt the last error is propagated; if an attempt
succeeds earlier, its response is returned after exactly that many
attempts. -/
theorem C4_backoff_retry_budget (cfg : APIConfig) (tokens : Bool)
    (script : Nat → Outcome) (refresh : Nat → Bool) (kw : Kwargs) :
    (1 ≤ cfg.max_retries →
      (∀ i, i < cfg.max_retries → claimFail (script i)) →
      (requestRun cfg tokens script refresh kw).1 =
          .error (errOf (script (cfg.max_retries - 1))) ∧
      (issuedOf (requestRun cfg tokens script refresh kw).2).length = cfg.max_retries ∧
      sleepsOf (requestRun cfg tokens script refresh kw).2 =
        (List.range (cfg.max_retries - 1)).map (fun k => 2 ^ k)) ∧
    (∀ k r, k < cfg.max_retries →
      (∀ i, i < k → claimFail (script i)) →
      script k = .resp r → r.status < 400 →
      (requestRun cfg tokens script refresh kw).1 = .ok r ∧
      (issuedOf (requestRun cfg tokens script refresh kw).2).length = k + 1) := by
  constructor
  · intro h1 h2
    have hall := attemptLoop_allFail tokens script refresh cfg.max_retries 0 0 0 kw h1
      (fun i hi => by simpa using claimFail_genFail tokens (script i) (h2 i hi))
    unfold requestRun
    rw [hall]
    refine ⟨by simp, ?_, ?_⟩
    · simp [issuedOf_failEvents]
    · simp [sleepsOf_failEvents]
  · intro k r hk h2 hs hstatus
    have hall := attemptLoop_failThenOk tokens script refresh k r cfg.max_retries 0 0 0 kw hk
      (fun i hi => by simpa using claimFail_genFail tokens (script i) (h2 i hi))
      (by simpa using hs) hstatus
    unfold requestRun
    rw [hall]
    refine ⟨rfl, ?_⟩
    simp [issuedOf_append, issuedOf_failPrefixEvents, issuedOf_cons_req, issuedOf_nil]

/-- Witness for C4: three network failures under the default config give
three attempts, sleeps 1 and 2, and the propagated network error. -/
theorem C4_backoff_retry_budget_witness :
    (requestRun defaultCfg false alwaysNetErr noRefresh demoKw).1 =
        .error (errOf (alwaysNetErr (defaultCfg.max_retries - 1))) ∧
    (issuedOf (requestRun defaultCfg false alwaysNetErr noRefresh demoKw).2).length =
        defaultCfg.max_retries ∧
    sleepsOf (requestRun defaultCfg false alwaysNetErr noRefresh demoKw).2 =
      (List.range (defaultCfg.max_retries - 1)).map (fun k => 2 ^ k) :=
  (C4_backoff_retry_budget defaultCfg false alwaysNetErr noRefresh demoKw).1
    (by decide) (fun i _ => trivial)

/-- Counterexample to claim C1 as stated: with the default budget of 3, a
run whose first response is 429 and whose later attempts all fail at the
network level issues only 3 requests in total — the 429-triggered retry
consumed one unit of the budget (the claim predicts 3 non-429 attempts
after the 429, hence 4 requests). -/
theorem C1_counterexample :
    (requestRun defaultCfg false oneRateLimitThenNet noRefresh demoKw).1 =
        .error .netError ∧
    sleepsOf (requestRun defaultCfg false oneRateLimitThenNet noRefresh demoKw).2 =
        [60, 2] ∧
    (issuedOf (requestRun defaultCfg false oneRateLimitThenNet noRefresh demoKw).2).length = 3 ∧
    ¬((issuedOf (requestRun defaultCfg false oneRateLimitThenNet noRefresh demoKw).2).length
        = 4) := by
  refine ⟨rfl, rfl, rfl, ?_⟩
  intro h
  rw [show (issuedOf (requestRun defaultCfg false oneRateLimitThenNet noRefresh
    demoKw).2).length = 3 from rfl] at h
  omega

/-- Claim C1 (amended): on a 429 response the client sleeps `Retry-After`
(default 60) and retries the same request, but the retry is charged
against the `max_retries` budget — the `continue` advances the loop
variable — so a run of `max_retries` consecutive 429 responses issues
exactly `max_retries` requests and then raises the final
`RuntimeError`. -/
theorem C1_amended_429_consumes_budget (cfg : APIConfig) (tokens : Bool)
    (script : Nat → Outcome) (refresh : Nat → Bool) (kw : Kwargs) (r : Resp)
    (hr : r.status = 429) (hs : ∀ i, i < cfg.max_retries → script i = .resp r) :
    (requestRun cfg tokens script refresh kw).1 = .error .runtimeError ∧
    (issuedOf (requestRun cfg tokens script refresh kw).2).length = cfg.max_retries ∧
    sleepsOf (requestRun cfg tokens script refresh kw).2 =
      List.replicate cfg.max_retries (r.retryAfter.getD 60) := by
  have hall := attemptLoop_all429 tokens script refresh r hr cfg.max_retries 0 0 0 kw
    (fun i hi => by simpa using hs i hi)
  unfold requestRun
  rw [hall]
  exact ⟨rfl, by simp [issuedOf_rateLimitedEvents], by simp [sleepsOf_rateLimitedEvents]⟩

/-- Witness for the amended C1: three consecutive 429s under the default
config exhaust the budget, with three 60-second waits. -/
theorem C1_amended_429_consumes_budget_witness :
    (requestRun defaultCfg false (always resp429) noRefresh demoKw).1 =
        .error .runtimeError ∧
    (issuedOf (requestRun defaultCfg false (always resp429) noRefresh demoKw).2).length =
        defaultCfg.max_retries ∧
    sleepsOf (requestRun defaultCfg false (always resp429) noRefresh demoKw).2 =
      List.replicate defaultCfg.max_retries (resp429.retryAfter.getD 60) :=
  C1_amended_429_consumes_budget defaultCfg false (always resp429) noRefresh demoKw resp429
    rfl (fun _ _ => rfl)

/-- Counterexample to claim C2 as stated: with a token pair held, every
refresh succeeding, and a server that answers 401 to every request, the
default-config run performs 3 refresh attempts (not exactly one), issues
6 requests, and finally propagates the generic `HTTPError` for the 401 —
the source defines no `AuthenticationFailed` error. -/
theorem C2_counterexample :
    refreshesOf (requestRun defaultCfg true (always resp401) yesRefresh demoKw).2 = 3 ∧
    ¬(refreshesOf (requestRun defaultCfg true (always resp401) yesRefresh demoKw).2 = 1) ∧
    (issuedOf (requestRun defaultCfg true (always resp401) yesRefresh demoKw).2).length = 6 ∧
    (requestRun defaultCfg true (always resp401) yesRefresh demoKw).1 =
        .error (.httpError resp401) := by
  refine ⟨rfl, ?_, rfl, rfl⟩
  intro h
  rw [show refreshesOf (requestRun defaultCfg true (always resp401) yesRefresh
    demoKw).2 = 3 from rfl] at h
  omega

/-- Claim C2 (amended): each attempt of the retry loop that receives a
401 while a token pair is held performs one refresh and one immediate
re-issue; a 401 on the re-issued request is treated as a generic HTTP
failure and re-enters the retry loop, so under a persistent 401 (with
succeeding refreshes) the run performs `max_retries` refresh attempts
and `2 * max_retries` requests, and the error finally surfaced is the
generic `HTTPError` of the 401 response (no `AuthenticationFailed` type
exists in this SDK). -/
theorem C2_amended_persistent_401 (cfg : APIConfig) (script : Nat → Outcome)
    (refresh : Nat → Bool) (kw : Kwargs) (r : Resp)
    (hr : r.status = 401) (h1 : 1 ≤ cfg.max_retries)
    (hs : ∀ i, script i = .resp r) (href : ∀ i, refresh i = true) :
    (requestRun cfg true script refresh kw).1 = .error (.httpError r) ∧
    (issuedOf (requestRun cfg true script refresh kw).2).length = 2 * cfg.max_retries ∧
    refreshesOf (requestRun cfg true script refresh kw).2 = cfg.max_retries := by
  unfold requestRun
  exact attemptLoop_all401 script refresh r hr hs href cfg.max_retries 0 0 0 kw h1

/-- Witness for the amended C2 at the default config: 3 refreshes, 6
requests, final generic 401 error. -/
theorem C2_amended_persistent_401_witness :
    (requestRun defaultCfg true (always resp401) yesRefresh demoKw).1 =
        .error (.httpError resp401) ∧
    (issuedOf (requestRun defaultCfg true (always resp401) yesRefresh demoKw).2).length =
        2 * defaultCfg.max_retries ∧
    refreshesOf (requestRun defaultCfg true (always resp401) yesRefresh demoKw).2 =
        defaultCfg.max_retries :=
  C2_amended_persistent_401 defaultCfg (always resp401) yesRefresh demoKw resp401
    rfl (by decide) (fun i => rfl) (fun i => rfl)

end FinSDK

namespace FinSDK

/-- Counterexample to claim C3 as stated: a POST to the portfolio
endpoint answered 400 (body: weights must sum to 1) on every attempt is
retried — 3 requests are issued under the default config, not 1 — and
what propagates is the generic `HTTPError` carrying the 400 response
(the source defines no `ValidationFailed` error). -/
theorem C3_counterexample :
    (analyze_portfolio defaultCfg false (always resp400weights) noRefresh portfolioDemo).1 =
        .error (.httpError resp400weights) ∧
    (issuedOf (analyze_portfolio defaultCfg false (always resp400weights) noRefresh
        portfolioDemo).2).length = 3 ∧
    ¬((issuedOf (analyze_portfolio defaultCfg false (always resp400weights) noRefresh
        portfolioDemo).2).length = 1) := by
  refine ⟨rfl, rfl, ?_⟩
  intro h
  rw [show (issuedOf (analyze_portfolio defaultCfg false (always resp400weights) noRefresh
    portfolioDemo).2).length = 3 from rfl] at h
  omega

/-- Claim C3 (amended): a 400 response is handled like any other error
status: `raise_for_status` raises, the generic retry loop retries it
with doubling backoff up to `max_retries` attempts, and the error
finally propagated is the generic `HTTPError` carrying the 400 response
and hence its body. -/
theorem C3_amended_400_retried_then_generic (cfg : APIConfig) (script : Nat → Outcome)
    (refresh : Nat → Bool) (portfolio : Json) (r : Resp)
    (h400 : r.status = 400) (h1 : 1 ≤ cfg.max_retries)
    (hs : ∀ i, i < cfg.max_retries → script i = .resp r) :
    (analyze_portfolio cfg false script refresh portfolio).1 = .error (.httpError r) ∧
    (issuedOf (analyze_portfolio cfg false script refresh portfolio).2).length =
        cfg.max_retries ∧
    sleepsOf (analyze_portfolio cfg false script refresh portfolio).2 =
      (List.range (cfg.max_retries - 1)).map (fun k => 2 ^ k) := by
  have hgen : ∀ i, i < cfg.max_retries → genFail false (script (0 + i)) := fun i hi => by
    rw [Nat.zero_add, hs i hi]
    exact genFail_of_400 r h400
  have hall := attemptLoop_allFail false script refresh cfg.max_retries 0 0 0
    { baseKwargs cfg "POST" "/analytics/portfolio" with jsonData := some portfolio } h1 hgen
  have hlast := hs (cfg.max_retries - 1) (by omega)
  unfold analyze_portfolio requestRun
  dsimp only
  rw [hall]
  refine ⟨?_, ?_, ?_⟩
  · simp [Except.map, hlast, errOf]
  · simp [issuedOf_failEvents]
  · simp [sleepsOf_failEvents]

/-- Witness for the amended C3 at the default config and the spec's 400
body: 3 attempts, sleeps 1 and 2, final generic 400 error carrying the
body. -/
theorem C3_amended_400_retried_then_generic_witness :
    (analyze_portfolio defaultCfg false (always resp400weights) noRefresh portfolioDemo).1 =
        .error (.httpError resp400weights) ∧
    (issuedOf (analyze_portfolio defaultCfg false (always resp400weights) noRefresh
        portfolioDemo).2).length = defaultCfg.max_retries ∧
    sleepsOf (analyze_portfolio defaultCfg false (always resp400weights) noRefresh
        portfolioDemo).2 =
      (List.range (defaultCfg.max_retries - 1)).map (fun k => 2 ^ k) :=
  C3_amended_400_retried_then_generic defaultCfg (always resp400weights) noRefresh
    portfolioDemo resp400weights rfl (by decide) (fun _ _ => rfl)

/-- Claim C5: on a 429 first response the client sleeps exactly the
parsed `Retry-After` header (60 when the header is absent) and then
re-issues the request with kwargs identical to the original — same
method, url, query params, form data and json body — as the trace shows:
request, sleep, request with the very same `kw`. -/
theorem C5_retry_after_wait_identical_retry (cfg : APIConfig) (tokens : Bool)
    (script : Nat → Outcome) (refresh : Nat → Bool) (kw : Kwargs) (r : Resp)
    (h0 : script 0 = .resp r) (h429 : r.status = 429) (h2 : 2 ≤ cfg.max_retries) :
    ∃ rest, (requestRun cfg tokens script refresh kw).2 =
      .req kw :: .sleep (r.retryAfter.getD 60) :: .req kw :: rest := by
  obtain ⟨m, hm⟩ : ∃ m, cfg.max_retries = m + 2 := ⟨cfg.max_retries - 2, by omega⟩
  unfold requestRun
  rw [hm]
  show ∃ rest, (attemptLoop tokens script refresh (m + 2) 0 0 0 kw).2 = _
  unfold attemptLoop
  rw [h0]
  dsimp only
  rw [if_pos h429]
  obtain ⟨tail, htail⟩ :=
    attemptLoop_events_head tokens script refresh (m + 1) 1 1 0 kw (by omega)
  rw [htail]
  exact ⟨tail, rfl⟩

/-- Witness for C5: a 429 without `Retry-After` followed by repeated
outcomes, under the default config: the trace starts with the request, a
60-second sleep, and the identical request. -/
theorem C5_retry_after_wait_identical_retry_witness :
    ∃ rest, (requestRun defaultCfg false oneRateLimitThenNet noRefresh demoKw).2 =
      .req demoKw :: .sleep (resp429.retryAfter.getD 60) :: .req demoKw :: rest :=
  C5_retry_after_wait_identical_retry defaultCfg false oneRateLimitThenNet noRefresh demoKw
    resp429 rfl rfl (by decide)

/-- Claim C6: a quote request answered 200 with body containing price
150.25 makes the client return that parsed body, and the spec-modelled
normalizer maps it to a `NormalizedResponse` with `success = true`
(the body has no `success` field, so the default applies) and `data`
equal to the body. -/
theorem C6_quote_scenario :
    (get_stock_quote defaultCfg false (always resp200quote) noRefresh "AAPL").1 =
        .ok (Json.obj [("price", .num (15025 / 100))]) ∧
    (normalize resp200quote none).success = true ∧
    (normalize resp200quote none).data = Json.obj [("price", .num (15025 / 100))] :=
  ⟨rfl, rfl, rfl⟩

/-- Claim C7: `get_api_status` never propagates a failure: when the
underlying request succeeds it returns the parsed body, and when the
underlying request errors in any way it returns the degraded-status
payload whose `status` field is the string error and whose `message`
field is the message of that failure. -/
theorem C7_health_check_never_raises (cfg : APIConfig) (tokens : Bool)
    (script : Nat → Outcome) (refresh : Nat → Bool) (now : String) :
    (∃ r : Resp,
        (requestRun cfg tokens script refresh (baseKwargs cfg "GET" "/health")).1 = .ok r ∧
        (get_api_status cfg tokens script refresh now).1 = r.body) ∨
    (∃ e : ReqError,
        (requestRun cfg tokens script refresh (baseKwargs cfg "GET" "/health")).1 =
            .error e ∧
        (get_api_status cfg tokens script refresh now).1.lookup "status" =
            some (.str "error") ∧
        (get_api_status cfg tokens script refresh now).1.lookup "message" =
            some (.str (errorStr e)) ∧
        (get_api_status cfg tokens script refresh now).1.lookup "timestamp" =
            some (.str now)) := by
  rcases hreq : requestRun cfg tokens script refresh (baseKwargs cfg "GET" "/health")
    with ⟨res, evs⟩
  cases res with
  | ok r =>
    left
    refine ⟨r, rfl, ?_⟩
    unfold get_api_status
    rw [hreq]
  | error e =>
    right
    refine ⟨e, rfl, ?_, ?_, ?_⟩ <;>
      · unfold get_api_status
        rw [hreq]
        rfl

end FinSDK

namespace FinSDK

/-- A first response that `raise_for_status` accepts is returned from the
first attempt, with a single request issued. -/
lemma requestRun_first_ok (cfg : APIConfig) (tokens : Bool) (script : Nat → Outcome)
    (refresh : Nat → Bool) (kw : Kwargs) (r : Resp)
    (h0 : script 0 = .resp r) (hlt : r.status < 400) (h1 : 1 ≤ cfg.max_retries) :
    requestRun cfg tokens script refresh kw = (.ok r, [.req kw]) := by
  unfold requestRun
  have hu := attemptLoop_failThenOk tokens script refresh 0 r cfg.max_retries 0 0 0 kw
    (by omega) (fun i hi => absurd hi (Nat.not_lt_zero i)) (by simpa using h0) hlt
  simpa [failPrefixEvents] using hu

/-- A run whose every response is the same `raise_for_status`-rejected,
non-429, non-(401-with-token) response: the `HTTPError` for it is
propagated after `max_retries` attempts. -/
lemma requestRun_allRespFail (cfg : APIConfig) (tokens : Bool) (script : Nat → Outcome)
    (refresh : Nat → Bool) (kw : Kwargs) (r : Resp)
    (h1 : 1 ≤ cfg.max_retries) (hs : ∀ i, i < cfg.max_retries → script i = .resp r)
    (h4 : 400 ≤ r.status) (h6 : r.status < 600) (h429 : r.status ≠ 429)
    (h401 : ¬(r.status = 401 ∧ tokens = true)) :
    (requestRun cfg tokens script refresh kw).1 = .error (.httpError r) ∧
    (issuedOf (requestRun cfg tokens script refresh kw).2).length = cfg.max_retries := by
  have hgen : ∀ i, i < cfg.max_retries → genFail tokens (script (0 + i)) := fun i hi => by
    rw [Nat.zero_add, hs i hi]
    exact ⟨h4, h6, h429, h401⟩
  have hall := attemptLoop_allFail tokens script refresh cfg.max_retries 0 0 0 kw h1 hgen
  have hlast := hs (cfg.max_retries - 1) (by omega)
  unfold requestRun
  rw [hall]
  constructor
  · simp [hlast, errOf]
  · simp [issuedOf_failEvents]

end FinSDK

namespace Setup

/-- The run is cancelled at the initial prompt exactly when no bypassing
flag is given and the answer is n. -/
lemma notProceeds_iff (f : Flags) (a : Answers) :
    ¬ proceeds f a ↔ (f.yes = false ∧ f.auto_start = false ∧ a.continueAns = "n") := by
  simp [proceeds, not_or]

end Setup

/-- Claim C8: for every run of the setup script, the exit code is 1
whenever a prerequisite check, clone, install or (when performed) build
step fails (environment setup can fail only by raising, which the
`__main__` guard also maps to exit code 1, see `scriptExitCode`), and it
is 0 on normal completion and on `KeyboardInterrupt`. -/
theorem C8_setup_exit_codes :
    Setup.scriptExitCode .keyboardInterrupt = 0 ∧
    Setup.scriptExitCode .otherException = 1 ∧
    ∀ (f : Setup.Flags) (st : Setup.StepResults) (a : Setup.Answers),
      (¬ Setup.proceeds f a → Setup.scriptExitCode (.normal (Setup.mainRun f st a)) = 0) ∧
      (Setup.proceeds f a →
        (st.check_requirements = false →
            Setup.scriptExitCode (.normal (Setup.mainRun f st a)) = 1) ∧
        (st.check_requirements = true → st.clone_repository = false →
            Setup.scriptExitCode (.normal (Setup.mainRun f st a)) = 1) ∧
        (st.check_requirements = true → st.clone_repository = true →
            st.install_dependencies = false →
            Setup.scriptExitCode (.normal (Setup.mainRun f st a)) = 1) ∧
        (st.check_requirements = true → st.clone_repository = true →
            st.install_dependencies = true → Setup.buildPerformed f a →
            st.build_application = false →
            Setup.scriptExitCode (.normal (Setup.mainRun f st a)) = 1) ∧
        (st.check_requirements = true → st.clone_repository = true →
            st.install_dependencies = true →
            (Setup.buildPerformed f a → st.build_application = true) →
            Setup.scriptExitCode (.normal (Setup.mainRun f st a)) = 0)) := by
  refine ⟨rfl, rfl, fun f st a => ⟨?_, fun hp => ?_⟩⟩
  · intro hnp
    unfold Setup.mainRun
    rw [if_pos ((Setup.notProceeds_iff f a).mp hnp)]
    rfl
  · have hno : ¬(f.yes = false ∧ f.auto_start = false ∧ a.continueAns = "n") :=
      fun hc => (Setup.notProceeds_iff f a).mpr hc hp
    refine ⟨?_, ?_, ?_, ?_, ?_⟩
    · intro hcheck
      unfold Setup.mainRun
      rw [if_neg hno, if_pos hcheck]
      rfl
    · intro hcheck hclone
      unfold Setup.mainRun
      rw [if_neg hno, if_neg (by simp [hcheck]), if_pos hclone]
      rfl
    · intro hcheck hclone hinstall
      unfold Setup.mainRun
      rw [if_neg hno, if_neg (by simp [hcheck]), if_neg (by simp [hclone]),
        if_pos hinstall]
      rfl
    · intro hcheck hclone hinstall hbp hbf
      unfold Setup.mainRun
      rw [if_neg hno, if_neg (by simp [hcheck]), if_neg (by simp [hclone]),
        if_neg (by simp [hinstall]), if_pos hbp.1]
      by_cases hya : f.yes = true ∨ f.auto_start = true
      · rw [if_pos hya, if_pos hbf]
        rfl
      · have hbans : a.buildAns ≠ "n" := by
          rcases hbp.2 with h | h | h
          · exact absurd (Or.inl h) hya
          · exact absurd (Or.inr h) hya
          · exact h
        rw [if_neg hya, if_pos hbans, if_pos hbf]
        rfl
    · intro hcheck hclone hinstall hbuild
      unfold Setup.mainRun
      rw [if_neg hno, if_neg (by simp [hcheck]), if_neg (by simp [hclone]),
        if_neg (by simp [hinstall])]
      by_cases hsb : f.skip_build = false
      · rw [if_pos hsb]
        by_cases hya : f.yes = true ∨ f.auto_start = true
        · have hb : st.build_application = true := hbuild
            ⟨hsb, hya.elim (fun h => Or.inl h) (fun h => Or.inr (Or.inl h))⟩
          rw [if_pos hya, if_neg (by simp [hb])]
          rfl
        · rw [if_neg hya]
          by_cases hbans : a.buildAns ≠ "n"
          · have hb : st.build_application = true := hbuild ⟨hsb, Or.inr (Or.inr hbans)⟩
            rw [if_pos hbans, if_neg (by simp [hb])]
            rfl
          · rw [if_neg hbans]
            rfl
      · rw [if_neg hsb]
        rfl

/-- Witness for C8: a run whose prerequisite check fails (with
`--yes` given) exits with code 1, and a `KeyboardInterrupt` exits with
code 0. -/
theorem C8_setup_exit_codes_witness :
    Setup.scriptExitCode (.normal (Setup.mainRun ⟨false, false, false, true⟩
      ⟨false, true, true, true⟩ ⟨"", ""⟩)) = 1 ∧
    Setup.scriptExitCode .keyboardInterrupt = 0 :=
  ⟨((C8_setup_exit_codes.2.2 ⟨false, false, false, true⟩ ⟨false, true, true, true⟩
      ⟨"", ""⟩).2 (Or.inl rfl)).1 rfl,
   C8_setup_exit_codes.1⟩

namespace FinSDK

/-- Counterexample to claim C9 as stated: a response with informational
status 100 is non-2xx/3xx, yet `raise_for_status` accepts it and
`unregister_webhook` returns `.ok false` instead of raising. -/
theorem C9_counterexample :
    (unregister_webhook defaultCfg false (always resp100) noRefresh "wh1").1 = .ok false ∧
    ¬(200 ≤ resp100.status ∧ resp100.status < 400) :=
  ⟨rfl, by decide⟩

/-- Claim C9 (amended): when the underlying request completes without
raising, `unregister_webhook` and `disconnect_integration` return
`True` exactly when the status is 200 — any other `raise_for_status`-
accepted status below 400 (204 No Content, redirects, and informational
1xx alike) yields `False` — while statuses in [400, 600) other than 429
make the call raise (here with no token pair held). -/
theorem C9_amended_exact_200 (cfg : APIConfig) (script : Nat → Outcome)
    (refresh : Nat → Bool) (webhook_id provider : String) (r : Resp)
    (h1 : 1 ≤ cfg.max_retries) :
    (script 0 = .resp r → r.status < 400 →
      (unregister_webhook cfg false script refresh webhook_id).1 =
          .ok (r.status == 200) ∧
      (disconnect_integration cfg false script refresh provider).1 =
          .ok (r.status == 200)) ∧
    ((∀ i, i < cfg.max_retries → script i = .resp r) → 400 ≤ r.status →
      r.status < 600 → r.status ≠ 429 →
      (unregister_webhook cfg false script refresh webhook_id).1 =
          .error (.httpError r) ∧
      (disconnect_integration cfg false script refresh provider).1 =
          .error (.httpError r)) := by
  constructor
  · intro h0 hlt
    constructor
    · unfold unregister_webhook
      rw [requestRun_first_ok cfg false script refresh _ r h0 hlt h1]
      rfl
    · unfold disconnect_integration
      rw [requestRun_first_ok cfg false script refresh _ r h0 hlt h1]
      rfl
  · intro hs h4 h6 h429
    have h401 : ¬(r.status = 401 ∧ false = true) := by
      rintro ⟨-, hc⟩
      exact Bool.false_ne_true hc
    constructor
    · unfold unregister_webhook
      have := (requestRun_allRespFail cfg false script refresh
        (baseKwargs cfg "DELETE" ("/webhooks/" ++ webhook_id)) r h1 hs h4 h6 h429 h401).1
      dsimp only
      rw [this]
      rfl
    · unfold disconnect_integration
      have := (requestRun_allRespFail cfg false script refresh
        (baseKwargs cfg "POST" ("/integrations/" ++ provider ++ "/disconnect")) r
        h1 hs h4 h6 h429 h401).1
      dsimp only
      rw [this]
      rfl

/-- Witness for the amended C9: a 204 No Content answer makes both calls
return false even though the server accepted the request. -/
theorem C9_amended_exact_200_witness :
    (unregister_webhook defaultCfg false (always resp204) noRefresh "wh1").1 =
        .ok (resp204.status == 200) ∧
    (disconnect_integration defaultCfg false (always resp204) noRefresh "bloomberg").1 =
        .ok (resp204.status == 200) :=
  (C9_amended_exact_200 defaultCfg (always resp204) noRefresh "wh1" "bloomberg" resp204
    (by decide)).1 rfl (by decide)

/-- Claim C10: with an empty symbol list and no weights argument, the
equal-weight default divides 1.0 by the list length and raises
`ZeroDivisionError` before any request is issued (empty trace); the
division is safe exactly under the precondition that the symbol list is
non-empty, under which the weight computation always succeeds. -/
theorem C10_empty_symbols_zero_division (script : Nat → Outcome) (refresh : Nat → Bool) :
    quick_portfolio_analysis script refresh [] none =
      (.error (.py .zeroDivisionError), []) ∧
    (∀ (symbols : List String) (weights : Option (List ℚ)), symbols ≠ [] →
      ∃ ws, quickWeights symbols weights = .ok ws) := by
  constructor
  · rfl
  · intro symbols weights hne
    have hlen : (symbols.length : ℚ) ≠ 0 := by
      have hz : symbols.length ≠ 0 := fun h => hne (List.length_eq_zero.mp h)
      exact_mod_cast hz
    unfold quickWeights
    by_cases h : weights = none ∨ weights = some []
    · rw [if_pos h]
      unfold pyDiv
      rw [if_neg hlen]
      exact ⟨_, rfl⟩
    · rw [if_neg h]
      exact ⟨_, rfl⟩

/-- Witness for C10: a one-symbol list makes the weight computation
succeed. -/
theorem C10_empty_symbols_zero_division_witness :
    ∃ ws, quickWeights ["AAPL"] none = .ok ws :=
  (C10_empty_symbols_zero_division alwaysNetErr noRefresh).2 ["AAPL"] none
    (fun h => List.noConfusion h)

end FinSDK
